import Mathlib

/-!
# Verification of the zpax replicated-decision node

Shallow embedding of `src/zpax/node.py` (class `BasicNode` and its helpers)
and `src/zpax/db.py` (class `DB`) of the zpax repository, together with
theorems settling the claims of the specification against this embedding.

Python values appearing on the wire are modelled by a small JSON datatype;
a raw frame part is modelled as `Option Json` (`none` = the bytes fail to
decode as JSON), since `json.loads` / `json.dumps` belong to the Python
standard library, not to this repository.  The components imported from the
external `paxos` package (`multi.MultiPaxos`, `basic.Acceptor`, the
heartbeat proposer) are not part of this repository's sources; the few of
their operations the node calls are modelled from the specification and
marked as such in their doc comments.
-/

namespace ZPax

/-- JSON values, the textual key-value encoding used on the wire.
An object is an insertion-ordered association list, mirroring a Python dict. -/
inductive Json where
  | null
  | bool (b : Bool)
  | num (n : Int)
  | str (s : String)
  | arr (xs : List Json)
  | obj (kvs : List (String × Json))

/-- Lookup of a key in a Python dict (first binding wins; `setKey` keeps
keys unique, as a dict does). -/
def lookupKey : List (String × Json) → String → Option Json
  | [], _ => none
  | (k, v) :: rest, key => if k = key then some v else lookupKey rest key

/-- Python dict assignment `d[key] = v`: replace the binding if the key is
present, otherwise append it (dicts preserve insertion order). -/
def setKey : List (String × Json) → String → Json → List (String × Json)
  | [], key, v => [(key, v)]
  | (k, w) :: rest, key, v =>
      if k = key then (k, v) :: rest else (k, w) :: setKey rest key v

/-- Python exceptions that the node code can raise and does not catch. -/
inductive PyError where
  | attributeError (name : String)
  | assertionError
  | indexError
  | keyError
  | typeError
deriving DecidableEq

/-- A proposal identifier: the `(round, node_uid)` pair used by the paxos
layer.  Its internal structure is irrelevant to the node-level claims. -/
abbrev ProposalID := Int × String

/-- `zpax.node.ProposalFailed` subclasses raised by `proposeValue`
(src/zpax/node.py lines 11-25). -/
inductive ProposalFailed where
  | sequenceMismatch (current_seq_num : Int)
  | valueAlreadyProposed
deriving DecidableEq

/-- The slice of a `BasicNode`'s state that the claims concern
(src/zpax/node.py lines 90-124).  `accept_retry` models the Twisted
`IDelayedCall` handle: `none` = the attribute is `None`, `some b` = a handle
whose `active()` method returns `b`.  The fields prefixed `proposer_`,
`acceptor_` and `mpax_` mirror the state of the external paxos objects that
the node code reads and writes (`self.mpax.node.proposer.leader`,
`self.mpax.node.proposer.value`, `self.mpax.node.acceptor.accepted_value`,
and MultiPaxos's current instance number). -/
structure NodeState where
  node_uid : String
  quorum_size : Int
  sequence_number : Int
  accept_retry : Option Bool
  heartbeat_poller_running : Bool
  heartbeat_pulser_running : Bool
  proposer_leader : Bool
  proposer_value : Option String
  acceptor_accepted_value : Option String
  mpax_instance_number : Int
  node_value : Option String
deriving DecidableEq

/-- The attribute names of a `BasicNode` instance: every method defined in
the class body of `BasicNode` (src/zpax/node.py lines 80-400) plus the class
attribute and the instance attributes assigned in `__init__` and in
`_on_proposal_resolution`.  `getattr` on a `BasicNode` succeeds exactly for
these names (besides the inherited `object` dunders, none of which matters
here because every lookup in the code uses an `_on_sub_` or
`paxos_on_leadership_lost` name). -/
def basicNodeAttrNames : List String :=
  [ "hb_proposer_klass",
    "node_uid", "local_ps_addr", "remote_ps_addrs", "quorum_size",
    "sequence_number", "accept_retry", "mpax",
    "heartbeat_poller", "heartbeat_pulser", "pub", "sub", "value",
    "onLeadershipAcquired", "onLeadershipLost", "onLeadershipChanged",
    "onBehindInSequence", "onOtherNodeBehindInSequence",
    "onProposalResolution", "onHeartbeat", "onShutdown", "getHeartbeatData",
    "slewSequenceNumber", "proposeValue", "publish", "shutdown",
    "_node_factory", "_poll_heartbeat", "_pulse_leader_heartbeat",
    "_paxos_on_leadership_acquired", "_paxos_on_leadership_lost",
    "_paxos_on_leadership_change",
    "_on_sub_received", "_check_sequence",
    "_on_sub_paxos_heartbeat", "_on_sub_paxos_prepare",
    "_on_sub_paxos_promise", "_on_sub_paxos_accept",
    "_on_sub_paxos_accepted",
    "_paxos_send_prepare", "_paxos_send_accept", "_paxos_send_heartbeat",
    "_on_sub_value_proposal", "_on_proposal_resolution" ]

/-- `getattr(self, name, None) is not None` for a `BasicNode`. -/
def basicNodeHasAttr (name : String) : Bool :=
  basicNodeAttrNames.contains name

/-- The six message `type` values the wire format recognizes (spec §4.8). -/
def wireTypes : List String :=
  [ "value_proposal", "paxos_prepare", "paxos_promise",
    "paxos_accept", "paxos_accepted", "paxos_heartbeat" ]

/-! ## Sequence checking of inbound Paxos messages (claim C2) -/

/-- The application signals a single inbound message can trigger through
`_check_sequence`: whether `onBehindInSequence` was called, and the
`node_uid` passed to `onOtherNodeBehindInSequence` when it was called. -/
structure SeqSignals where
  onBehindInSequence : Bool
  onOtherNodeBehindInSequence : Option String
deriving DecidableEq

/-- `BasicNode._check_sequence` (src/zpax/node.py lines 299-308): compare
the header's `seq_num` against the local `sequence_number`, firing the
advisory callbacks, and return whether they are equal.  Result:
(signals fired, returned boolean). -/
def checkSequence (localSeq : Int) (header_seq : Int) (header_uid : String) :
    SeqSignals × Bool :=
  if header_seq > localSeq then (⟨true, none⟩, false)
  else if header_seq < localSeq then (⟨false, some header_uid⟩, false)
  else (⟨false, none⟩, true)

/-- `BasicNode._on_sub_paxos_prepare` (lines 316-322): runs the sequence
check and feeds `mpax.recv_prepare` only when it passes.  The `recv_prepare`
call itself lives in the external paxos package; the boolean records whether
it was invoked. -/
def onSubPaxosPrepare (localSeq header_seq : Int) (header_uid : String) :
    SeqSignals × Bool :=
  checkSequence localSeq header_seq header_uid

/-- `BasicNode._on_sub_paxos_promise` (lines 325-334): sequence check, then
`mpax.recv_promise` only on a pass. -/
def onSubPaxosPromise (localSeq header_seq : Int) (header_uid : String) :
    SeqSignals × Bool :=
  checkSequence localSeq header_seq header_uid

/-- `BasicNode._on_sub_paxos_accept` (lines 337-344): sequence check, then
`mpax.recv_accept_request` only on a pass. -/
def onSubPaxosAccept (localSeq header_seq : Int) (header_uid : String) :
    SeqSignals × Bool :=
  checkSequence localSeq header_seq header_uid

/-- `BasicNode._on_sub_paxos_accepted` (lines 347-351): sequence check, then
`mpax.recv_accepted` only on a pass. -/
def onSubPaxosAccepted (localSeq header_seq : Int) (header_uid : String) :
    SeqSignals × Bool :=
  checkSequence localSeq header_seq header_uid

/-- `BasicNode._on_sub_paxos_heartbeat` (src/zpax/node.py lines 311-313):
feeds `mpax.node.proposer.recv_heartbeat(tuple(pax[0]))` unconditionally
and never calls `_check_sequence` — no sequence comparison happens on this
path. -/
def onSubPaxosHeartbeat (_localSeq _header_seq : Int) (_header_uid : String) :
    SeqSignals × Bool :=
  (⟨false, none⟩, true)

/-- The recognized `paxos_*` wire types. -/
inductive PaxosWireType where
  | paxos_prepare
  | paxos_promise
  | paxos_accept
  | paxos_accepted
  | paxos_heartbeat
deriving DecidableEq

/-- Dispatch of an inbound `paxos_*` message to its handler, projected onto
the signals fired and whether the payload was fed into the paxos layer. -/
def handleInboundPaxos (t : PaxosWireType) (localSeq header_seq : Int)
    (header_uid : String) : SeqSignals × Bool :=
  match t with
  | .paxos_prepare => onSubPaxosPrepare localSeq header_seq header_uid
  | .paxos_promise => onSubPaxosPromise localSeq header_seq header_uid
  | .paxos_accept => onSubPaxosAccept localSeq header_seq header_uid
  | .paxos_accepted => onSubPaxosAccepted localSeq header_seq header_uid
  | .paxos_heartbeat => onSubPaxosHeartbeat localSeq header_seq header_uid

/-! ## Publishing and loopback (claim C6) -/

/-- A multipart frame stack as built by `BasicNode.publish`: the fixed topic
tag followed by the JSON-encoded parts.  Encoding to bytes is the Python
standard library's `json.dumps` and always yields decodable text, so the
parts are kept as their structural JSON content. -/
structure MsgStack where
  topic : String
  parts : List Json

/-- The externally observable actions of one `publish` call, in program
order: `self.pub.send(msg_stack)` then the synchronous loopback
`self._on_sub_received(msg_stack)`, both before the call returns. -/
inductive PubEvent where
  | pubSend (s : MsgStack)
  | subDispatch (s : MsgStack)

/-- The stamped first part `BasicNode.publish` builds (src/zpax/node.py
lines 207-209) when that part is the dict `kvs`: set `type`, `node_uid` and
`seq_num` on it, in that order. -/
def publishHead (st : NodeState) (message_type : String)
    (kvs : List (String × Json)) : List (String × Json) :=
  setKey (setKey (setKey kvs "type" (.str message_type))
          "node_uid" (.str st.node_uid))
        "seq_num" (.num st.sequence_number)

/-- The full multipart frame stack `publish` sends: the `'zpax'` topic tag
followed by the stamped first part and the remaining parts. -/
def publishStack (st : NodeState) (message_type : String)
    (kvs : List (String × Json)) (rest : List Json) : MsgStack :=
  ⟨"zpax", Json.obj (publishHead st message_type kvs) :: rest⟩

/-- `BasicNode.publish` (src/zpax/node.py lines 203-216): default the parts
to `[{}]` when none are given, stamp the first part, send the stack on the
pub socket and feed the same stack to the node's own subscribe handler
before returning.  Mutating `parts[0]['type']` on a non-dict first part
would raise `TypeError`; every call site in the source passes a dict. -/
def publish (st : NodeState) (message_type : String) (parts : List Json) :
    Except PyError (MsgStack × List PubEvent) :=
  let parts := if parts.isEmpty then [Json.obj []] else parts
  match parts with
  | Json.obj kvs :: rest =>
      let stack := publishStack st message_type kvs rest
      .ok (stack, [.pubSend stack, .subDispatch stack])
  | _ => .error .typeError

/-! ## The subscribe dispatcher (claims C9 and C10) -/

/-- Python `'type' in x` for a JSON value `x`: key membership for a dict,
element membership for a list, substring test for a string, `TypeError`
otherwise. -/
def pyContainsType : Json → Except PyError Bool
  | .obj kvs => .ok (lookupKey kvs "type").isSome
  | .arr xs => .ok (xs.any fun j => match j with
      | .str s => s = "type"
      | _ => false)
  | .str s => .ok ((s.splitOn "type").length > 1)
  | _ => .error .typeError

/-- Python `x['type']` for a JSON value `x`: dict lookup (`KeyError` when
absent), `TypeError` for a list or string subscripted with a string, and
`TypeError` for the rest. -/
def pySubscriptType : Json → Except PyError Json
  | .obj kvs =>
      match lookupKey kvs "type" with
      | some v => .ok v
      | none => .error .keyError
  | _ => .error .typeError

/-- `[json.loads(p) for p in msg_parts[1:]]`: decode each raw part, failing
as soon as one part is not valid JSON (the `ValueError` the code catches). -/
def decodeParts : List (Option Json) → Option (List Json)
  | [] => some []
  | none :: _ => none
  | some j :: rest => (decodeParts rest).map (j :: ·)

/-- What one `_on_sub_received` call does with an inbound frame. -/
inductive Outcome where
  | droppedInvalidJson
  | droppedMissingType
  | droppedUnknownType
  | dispatched (handlerName : String) (args : List Json)
  | raised (e : PyError)

/-- The log lines `_on_sub_received` itself emits for each outcome: a
message for undecodable JSON and for a missing `type`, nothing when the
`getattr` lookup finds no handler (the `if fobj:` test simply falls
through). -/
def outcomeLogs : Outcome → List String
  | .droppedInvalidJson => ["Invalid JSON"]
  | .droppedMissingType => ["Missing message type"]
  | _ => []

/-- `BasicNode._on_sub_received` (src/zpax/node.py lines 277-296), applied
to the frame parts after the topic (`msg_parts[1:]`): decode every part,
catching only `ValueError`; index `parts[0]` (an `IndexError` when the list
is empty propagates); test `'type' in parts[0]` and return when absent;
resolve the handler as `getattr(self, '_on_sub_' + parts[0]['type'], None)`
and call it with the decoded parts when the attribute exists. -/
def onSubReceived (rawParts : List (Option Json)) : Outcome :=
  match decodeParts rawParts with
  | none => .droppedInvalidJson
  | some [] => .raised .indexError
  | some (p0 :: rest) =>
      match pyContainsType p0 with
      | .error e => .raised e
      | .ok false => .droppedMissingType
      | .ok true =>
          match pySubscriptType p0 with
          | .error e => .raised e
          | .ok (.str s) =>
              if basicNodeHasAttr ("_on_sub_" ++ s) then
                .dispatched ("_on_sub_" ++ s) (p0 :: rest)
              else
                .droppedUnknownType
          | .ok _ => .raised .typeError

/-! ## External paxos operations the node invokes, modelled from the spec -/

/-- Modelled from the spec: `MultiPaxos.set_proposal(seq, value)` of the
external paxos package (spec §4.7 forwards to the current SingleInstance's
Proposer iff `seq == current_instance_number`; §4.4 `set_proposal` latches
the value only if none is latched yet and never overwrites). -/
def mpaxSetProposal (st : NodeState) (seq : Int) (value : String) : NodeState :=
  if seq = st.mpax_instance_number then
    if st.proposer_value = none then { st with proposer_value := some value }
    else st
  else st

/-- Modelled from the spec: `MultiPaxos.set_instance_number(n)` of the
external paxos package (spec §4.7: declare the current slot to be `n` and
construct a fresh SingleInstance, resetting the per-instance proposer value
and acceptor state; the leadership opinion carries forward). -/
def mpaxSetInstanceNumber (st : NodeState) (n : Int) : NodeState :=
  { st with mpax_instance_number := n,
            proposer_value := none,
            acceptor_accepted_value := none }

/-! ## proposeValue (claim C1) -/

/-- The result of one `proposeValue` call: the node state afterwards, the
frame stacks published during the call, and the `ProposalFailed` exception
raised, if any (a raise leaves the state untouched because in the source
both checks precede any effect). -/
structure ProposeResult where
  state : NodeState
  published : List MsgStack
  error : Option ProposalFailed

/-- `BasicNode.proposeValue` (src/zpax/node.py lines 189-200): raise
`SequenceMismatch(self.sequence_number)` when the given sequence number
differs from the local one; raise `ValueAlreadyProposed` when the current
proposer has a latched value or the acceptor has accepted a value;
otherwise publish a `value_proposal` frame carrying the value and call
`mpax.set_proposal`.  The publish loops back synchronously into
`_on_sub_value_proposal` (lines 381-386), whose guards — the header's
`seq_num` equals the local sequence number and the acceptor has accepted
nothing — both hold here, so it latches the proposal first; the outer
`set_proposal` call then finds it latched and is a no-op. -/
def proposeValue (st : NodeState) (sequence_number : Int) (value : String) :
    ProposeResult :=
  if sequence_number ≠ st.sequence_number then
    ⟨st, [], some (.sequenceMismatch st.sequence_number)⟩
  else if st.proposer_value ≠ none then
    ⟨st, [], some .valueAlreadyProposed⟩
  else if st.acceptor_accepted_value ≠ none then
    ⟨st, [], some .valueAlreadyProposed⟩
  else
    let stack := publishStack st "value_proposal" [("value", .str value)] []
    let st1 := mpaxSetProposal st st.sequence_number value
    let st2 := mpaxSetProposal st1 st.sequence_number value
    ⟨st2, [stack], none⟩

/-! ## Leadership loss and the accept retry (claims C3 and C5) -/

/-- `BasicNode._paxos_on_leadership_lost` (src/zpax/node.py lines 259-267):
cancel the accept-retry handle when one is held and clear it, stop the
heartbeat pulser when it is running, and invoke the `onLeadershipLost`
application callback. -/
def paxosOnLeadershipLost (st : NodeState) : NodeState :=
  let st :=
    match st.accept_retry with
    | some _ => { st with accept_retry := none }
    | none => st
  if st.heartbeat_pulser_running then { st with heartbeat_pulser_running := false }
  else st

/-- `BasicHeartbeatProposer.hb_period` (src/zpax/node.py line 29): 0.5
seconds, the delay of the accept retransmission. -/
def hb_period : ℚ := 1 / 2

/-- The observable actions of `_paxos_send_accept`: publishing the
`paxos_accept` frame `publish('paxos_accept', {}, [proposal_id, value])`,
abbreviated to its payload, and scheduling the retransmission through
`reactor.callLater(delay, ...)`. -/
inductive AcceptEvent where
  | publishAccept (proposal_id : ProposalID) (value : String)
  | scheduleRetry (delay : ℚ) (proposal_id : ProposalID) (value : String)

/-- `self.accept_retry is None or not self.accept_retry.active()` — the
guard under which `_paxos_send_accept` may proceed. -/
def retryNotActive (st : NodeState) : Bool :=
  match st.accept_retry with
  | some true => false
  | _ => true

/-- `BasicNode._paxos_send_accept` (src/zpax/node.py lines 359-371): when
`mpax.have_leadership()` (which delegates to the current proposer's
`leader` flag, spec §4.7) holds and no retry handle is active, publish the
`paxos_accept` and schedule a retransmission of the same
`(proposal_id, value)` after `hb_period`, storing the new active handle;
otherwise do nothing. -/
def paxosSendAccept (st : NodeState) (proposal_id : ProposalID)
    (value : String) : NodeState × List AcceptEvent :=
  if st.proposer_leader && retryNotActive st then
    ({ st with accept_retry := some true },
     [.publishAccept proposal_id value,
      .scheduleRetry hb_period proposal_id value])
  else (st, [])

/-- The pending retransmission firing: Twisted marks the delayed-call
handle as no longer active and then invokes
`_paxos_send_accept(proposal_id, value)` with the arguments captured at
scheduling time (src/zpax/node.py lines 368-371). -/
def acceptRetryFires (st : NodeState) (proposal_id : ProposalID)
    (value : String) : NodeState × List AcceptEvent :=
  paxosSendAccept { st with accept_retry := some false } proposal_id value

/-- The attribute-name string `slewSequenceNumber` uses for its
leadership-drop call: the source (src/zpax/node.py line 184) reads
`self.paxos_on_leadership_lost()`, while the method defined on the class is
`_paxos_on_leadership_lost`. -/
def slewLeadershipLostAttr : String := "paxos_on_leadership_lost"

/-- `BasicNode.slewSequenceNumber` (src/zpax/node.py lines 178-186):
`assert new > current`; set `sequence_number`; when the proposer is leader,
call the attribute named `paxos_on_leadership_lost` — an `AttributeError`
when no such attribute exists on the class; finally declare the new
instance number to MultiPaxos. -/
def slewSequenceNumber (st : NodeState) (new_sequence_number : Int) :
    Except PyError NodeState :=
  if new_sequence_number > st.sequence_number then
    let st := { st with sequence_number := new_sequence_number }
    if st.proposer_leader then
      if basicNodeHasAttr slewLeadershipLostAttr then
        .ok (mpaxSetInstanceNumber (paxosOnLeadershipLost st) st.sequence_number)
      else
        .error (.attributeError slewLeadershipLostAttr)
    else
      .ok (mpaxSetInstanceNumber st st.sequence_number)
  else
    .error .assertionError

/-! ## Instance resolution (claim C4) -/

/-- The observable actions of `_on_proposal_resolution`: cancelling the
accept-retry handle and invoking the `onProposalResolution` application
callback with its two arguments. -/
inductive ResolutionEvent where
  | cancelRetry
  | callbackResolution (instance_num : Int) (value : String)
deriving DecidableEq

/-- `BasicNode._on_proposal_resolution` (src/zpax/node.py lines 392-400),
the callback MultiPaxos invokes when the current instance resolves: cancel
and clear the accept-retry handle when one is held, record the value, set
`sequence_number := instance_num + 1`, and invoke
`onProposalResolution(instance_num, value)`. -/
def onProposalResolutionHandler (st : NodeState) (instance_num : Int)
    (value : String) : NodeState × List ResolutionEvent :=
  match st.accept_retry with
  | some _ =>
      ({ st with accept_retry := none,
                 node_value := some value,
                 sequence_number := instance_num + 1 },
       [.cancelRetry, .callbackResolution instance_num value])
  | none =>
      ({ st with node_value := some value,
                 sequence_number := instance_num + 1 },
       [.callbackResolution instance_num value])

/-! ## Shutdown (claim C7) -/

/-- The actions `shutdown` performs, in program order. -/
inductive ShutEvent where
  | onShutdown
  | cancelRetry
  | closePub
  | closeSub
  | stopPoller
  | stopPulser
deriving DecidableEq

/-- Classifies the timer-stopping actions of `shutdown`: cancelling the
accept-retry delayed call and stopping the two heartbeat `LoopingCall`s. -/
def isTimerStop : ShutEvent → Bool
  | .cancelRetry => true
  | .stopPoller => true
  | .stopPulser => true
  | _ => false

/-- Classifies the socket-closing actions of `shutdown`. -/
def isSocketClose : ShutEvent → Bool
  | .closePub => true
  | .closeSub => true
  | _ => false

/-- `BasicNode.shutdown` (src/zpax/node.py lines 219-228), as the sequence
of actions it performs: invoke `onShutdown`; cancel the accept retry when a
handle is held and still active; close the pub socket, then the sub socket;
stop the heartbeat poller and then the pulser, each when running. -/
def shutdown (st : NodeState) : List ShutEvent :=
  [ShutEvent.onShutdown]
    ++ (match st.accept_retry with
        | some true => [ShutEvent.cancelRetry]
        | _ => [])
    ++ [ShutEvent.closePub, ShutEvent.closeSub]
    ++ (if st.heartbeat_poller_running then [ShutEvent.stopPoller] else [])
    ++ (if st.heartbeat_pulser_running then [ShutEvent.stopPulser] else [])

/-- `true` iff every timer-stopping action in the trace happens strictly
before every socket-closing action: from the first socket close onward, no
timer stop occurs. -/
def allTimerStopsPrecedeCloses (tr : List ShutEvent) : Bool :=
  !((tr.dropWhile fun e => !(isSocketClose e)).any isTimerStop)

/-! ## The store adapter (claim C8) -/

/-- A row of the `kv` table of `src/zpax/db.py` (`key text PRIMARY KEY,
value text, proposal integer`); `proposal` is nullable. -/
structure Row where
  key : String
  value : String
  proposal : Option Int
deriving DecidableEq

/-- SQL `proposal < ?` under three-valued logic: a NULL `proposal` compares
as unknown, which does not satisfy the WHERE clause. -/
def sqlLt (proposal : Option Int) (p : Int) : Bool :=
  match proposal with
  | some a => a < p
  | none => false

/-- `DB.update_key` (src/zpax/db.py lines 47-50): `UPDATE kv SET value=?,
proposal=? WHERE key=? AND proposal < ?` — rewrite every row matching the
WHERE clause; an UPDATE statement never inserts a row. -/
def update_key (tbl : List Row) (key value : String) (proposal_number : Int) :
    List Row :=
  tbl.map fun r =>
    if r.key == key && sqlLt r.proposal proposal_number then
      { r with value := value, proposal := some proposal_number }
    else r

/-- `SELECT ... FROM kv WHERE key=?`: the first row with the given primary
key. -/
def getRow (tbl : List Row) (key : String) : Option Row :=
  tbl.find? fun r => r.key == key

/-! ## Concrete states used to exercise the theorems -/

/-- Node "A" of a three-node cluster, freshly constructed: sequence 0, no
retry handle, heartbeat poller running (started in `__init__`), pulser
stopped, not leader, nothing proposed or accepted. -/
def idleNode : NodeState :=
  { node_uid := "A", quorum_size := 2, sequence_number := 0,
    accept_retry := none, heartbeat_poller_running := true,
    heartbeat_pulser_running := false, proposer_leader := false,
    proposer_value := none, acceptor_accepted_value := none,
    mpax_instance_number := 0, node_value := none }

/-- The same node after acquiring leadership: the proposer's leader flag is
set and the heartbeat pulser is running. -/
def leaderNode : NodeState :=
  { idleNode with proposer_leader := true, heartbeat_pulser_running := true }

/-- The leader mid-flight: a value is latched and an accept-retry handle is
pending. -/
def busyLeaderNode : NodeState :=
  { leaderNode with accept_retry := some true, proposer_value := some "w" }

/-! ## Helper lemmas -/

theorem lookupKey_setKey_same (kvs : List (String × Json)) (k : String)
    (v : Json) : lookupKey (setKey kvs k v) k = some v := by
  induction kvs with
  | nil => simp [setKey, lookupKey]
  | cons hd tl ih =>
      obtain ⟨k0, w⟩ := hd
      by_cases h : k0 = k <;> simp [setKey, lookupKey, h, ih]

theorem lookupKey_setKey_other (kvs : List (String × Json)) (k k' : String)
    (v : Json) (h : k' ≠ k) :
    lookupKey (setKey kvs k v) k' = lookupKey kvs k' := by
  induction kvs with
  | nil =>
      have hk : k ≠ k' := fun hh => h hh.symm
      simp [setKey, lookupKey, hk]
  | cons hd tl ih =>
      obtain ⟨k0, w⟩ := hd
      by_cases h0 : k0 = k
      · subst h0
        have hk : k0 ≠ k' := fun hh => h hh.symm
        simp [setKey, lookupKey, hk]
      · simp [setKey, lookupKey, h0, ih]

theorem publishHead_type (st : NodeState) (mt : String)
    (kvs : List (String × Json)) :
    lookupKey (publishHead st mt kvs) "type" = some (.str mt) := by
  unfold publishHead
  rw [lookupKey_setKey_other _ _ _ _ (by decide),
      lookupKey_setKey_other _ _ _ _ (by decide),
      lookupKey_setKey_same]

theorem publishHead_node_uid (st : NodeState) (mt : String)
    (kvs : List (String × Json)) :
    lookupKey (publishHead st mt kvs) "node_uid" = some (.str st.node_uid) := by
  unfold publishHead
  rw [lookupKey_setKey_other _ _ _ _ (by decide), lookupKey_setKey_same]

theorem publishHead_seq_num (st : NodeState) (mt : String)
    (kvs : List (String × Json)) :
    lookupKey (publishHead st mt kvs) "seq_num" = some (.num st.sequence_number) := by
  unfold publishHead
  rw [lookupKey_setKey_same]

theorem publishHead_preserved (st : NodeState) (mt : String)
    (kvs : List (String × Json)) (k : String)
    (h1 : k ≠ "type") (h2 : k ≠ "node_uid") (h3 : k ≠ "seq_num") :
    lookupKey (publishHead st mt kvs) k = lookupKey kvs k := by
  unfold publishHead
  rw [lookupKey_setKey_other _ _ _ _ h3,
      lookupKey_setKey_other _ _ _ _ h2,
      lookupKey_setKey_other _ _ _ _ h1]

theorem decodeParts_cons_some (j : Json) (l : List (Option Json)) :
    decodeParts (some j :: l) = (decodeParts l).map (j :: ·) := rfl

theorem decodeParts_map_some (l : List Json) :
    decodeParts (l.map some) = some l := by
  induction l with
  | nil => rfl
  | cons hd tl ih => simp [decodeParts, ih]

theorem decodeParts_of_mem_none (raw : List (Option Json))
    (h : none ∈ raw) : decodeParts raw = none := by
  induction raw with
  | nil => cases h
  | cons hd tl ih =>
      cases hd with
      | none => rfl
      | some j =>
          have htl : none ∈ tl := by
            rcases List.mem_cons.mp h with h1 | h1
            · exact Option.noConfusion h1
            · exact h1
          simp [decodeParts, ih htl]

theorem checkSequence_spec (l hs : Int) (u : String) :
    ((checkSequence l hs u).1.onBehindInSequence = true ↔ hs > l)
    ∧ ((checkSequence l hs u).1.onOtherNodeBehindInSequence = some u ↔ hs < l)
    ∧ ((checkSequence l hs u).2 = true ↔ hs = l) := by
  unfold checkSequence
  split_ifs with h1 h2 <;>
    refine ⟨by simp; omega, by simp; omega, by simp; omega⟩

/-! ## The claims -/

/-- C1: `proposeValue(seq, value)` raises `SequenceMismatch` carrying the
node's current sequence number exactly when `seq` differs from it;
otherwise it raises `ValueAlreadyProposed` exactly when the current
proposer already has a latched value or the acceptor has accepted a value;
otherwise it broadcasts a single `value_proposal` frame stack carrying the
value.  On either failure the state is unchanged and nothing is
published. -/
theorem proposeValue_spec (st : NodeState) (seq : Int) (v : String) :
    ((proposeValue st seq v).error = some (.sequenceMismatch st.sequence_number)
      ↔ seq ≠ st.sequence_number)
    ∧ (seq = st.sequence_number →
        ((proposeValue st seq v).error = some .valueAlreadyProposed ↔
          (st.proposer_value ≠ none ∨ st.acceptor_accepted_value ≠ none)))
    ∧ ((proposeValue st seq v).error = none ↔
        (seq = st.sequence_number ∧ st.proposer_value = none
          ∧ st.acceptor_accepted_value = none))
    ∧ ((proposeValue st seq v).error = none →
        (proposeValue st seq v).published =
          [publishStack st "value_proposal" [("value", .str v)] []]
        ∧ lookupKey (publishHead st "value_proposal" [("value", .str v)])
            "type" = some (.str "value_proposal")
        ∧ lookupKey (publishHead st "value_proposal" [("value", .str v)])
            "value" = some (.str v))
    ∧ ((proposeValue st seq v).error ≠ none →
        (proposeValue st seq v).state = st
        ∧ (proposeValue st seq v).published = []) := by
  have htype := publishHead_type st "value_proposal" [("value", .str v)]
  have hval := publishHead_preserved st "value_proposal" [("value", .str v)]
    "value" (by decide) (by decide) (by decide)
  by_cases h1 : seq = st.sequence_number
  · by_cases h2 : st.proposer_value = none
    · by_cases h3 : st.acceptor_accepted_value = none
      · simp [proposeValue, h1, h2, h3, htype, hval, lookupKey]
      · simp [proposeValue, h1, h2, h3]
    · simp [proposeValue, h1, h2]
  · simp [proposeValue, h1, Ne.symm h1]

/-- Concrete run of C1: a call with a stale sequence number is rejected
with the node's current sequence number. -/
theorem proposeValue_witness :
    (proposeValue idleNode 1 "x").error = some (.sequenceMismatch 0) :=
  (proposeValue_spec idleNode 1 "x").1.mpr (by decide)

/-- C2 (amended): `paxos_prepare`, `paxos_promise`, `paxos_accept` and
`paxos_accepted` run the sequence check — `onBehindInSequence` exactly when
the message's `seq_num` exceeds the local sequence number,
`onOtherNodeBehindInSequence` with the sender's uid exactly when it is
below, and the payload fed to MultiPaxos exactly on equality — but
`paxos_heartbeat` bypasses the check entirely: it never signals and its
payload is always fed to the proposer, whatever its `seq_num`. -/
theorem inbound_sequence_spec (t : PaxosWireType) (l hs : Int) (u : String) :
    (t ≠ .paxos_heartbeat →
      ((handleInboundPaxos t l hs u).1.onBehindInSequence = true ↔ hs > l)
      ∧ ((handleInboundPaxos t l hs u).1.onOtherNodeBehindInSequence = some u
          ↔ hs < l)
      ∧ ((handleInboundPaxos t l hs u).2 = true ↔ hs = l))
    ∧ (t = .paxos_heartbeat →
        handleInboundPaxos t l hs u = (⟨false, none⟩, true)) := by
  cases t
  case paxos_prepare =>
      exact ⟨fun _ => checkSequence_spec l hs u, fun h => by cases h⟩
  case paxos_promise =>
      exact ⟨fun _ => checkSequence_spec l hs u, fun h => by cases h⟩
  case paxos_accept =>
      exact ⟨fun _ => checkSequence_spec l hs u, fun h => by cases h⟩
  case paxos_accepted =>
      exact ⟨fun _ => checkSequence_spec l hs u, fun h => by cases h⟩
  case paxos_heartbeat =>
      exact ⟨fun h => absurd rfl h, fun _ => rfl⟩

/-- C2 fails as stated: a `paxos_heartbeat` whose `seq_num` (1) exceeds the
local sequence number (0) is fed to the paxos layer anyway and
`onBehindInSequence` is not signalled, because `_on_sub_paxos_heartbeat`
never calls `_check_sequence`. -/
theorem inbound_heartbeat_counterexample :
    (handleInboundPaxos .paxos_heartbeat 0 1 "B").2 = true
    ∧ (handleInboundPaxos .paxos_heartbeat 0 1 "B").1.onBehindInSequence
        = false :=
  ⟨rfl, rfl⟩

/-- Concrete run of C2: an equal-sequence `paxos_prepare` is fed to
MultiPaxos. -/
theorem inbound_sequence_witness :
    (handleInboundPaxos .paxos_prepare 3 3 "B").2 = true :=
  (((inbound_sequence_spec .paxos_prepare 3 3 "B").1 (by decide)).2.2).mpr rfl

/-- C3: the claim describes the intended behavior of `slewSequenceNumber`,
but on a leader the code raises `AttributeError`: line 184 calls
`self.paxos_on_leadership_lost()` while the method the class defines is
`_paxos_on_leadership_lost`, so the leadership-lost path never runs and the
call never returns normally.  On a non-leader the slew works as claimed. -/
theorem slew_leader_attribute_bug :
    slewSequenceNumber leaderNode 1
      = .error (.attributeError "paxos_on_leadership_lost")
    ∧ basicNodeHasAttr "paxos_on_leadership_lost" = false
    ∧ basicNodeHasAttr "_paxos_on_leadership_lost" = true
    ∧ slewSequenceNumber idleNode 1
        = .ok (mpaxSetInstanceNumber { idleNode with sequence_number := 1 } 1) :=
  ⟨rfl, rfl, rfl, rfl⟩

/-- C4: when an instance resolves, the node's resolution callback cancels
any held accept-retry handle, sets the local sequence number to
`instance_num + 1`, records the value, and invokes
`onProposalResolution(instance_num, value)`. -/
theorem resolution_spec (st : NodeState) (i : Int) (v : String) :
    (onProposalResolutionHandler st i v).1.accept_retry = none
    ∧ (onProposalResolutionHandler st i v).1.sequence_number = i + 1
    ∧ (onProposalResolutionHandler st i v).1.node_value = some v
    ∧ (st.accept_retry ≠ none →
        ResolutionEvent.cancelRetry ∈ (onProposalResolutionHandler st i v).2)
    ∧ ResolutionEvent.callbackResolution i v
        ∈ (onProposalResolutionHandler st i v).2 := by
  cases hr : st.accept_retry <;> simp [onProposalResolutionHandler, hr]

/-- Concrete run of C4: with a pending retry handle, resolution cancels
it. -/
theorem resolution_witness :
    ResolutionEvent.cancelRetry
      ∈ (onProposalResolutionHandler busyLeaderNode 0 "v").2 :=
  (resolution_spec busyLeaderNode 0 "v").2.2.2.1 (by decide)

/-- C5: a `paxos_accept` is published only while the node holds leadership
with no retry handle active, and doing so schedules a retransmission of the
same `(proposal_id, value)` after `hb_period`, leaving an active handle;
when the delayed call fires it re-publishes the same pair only if
leadership still holds; and the leadership-lost path always leaves no
pending retry handle. -/
theorem accept_retry_spec (st : NodeState) (pid : ProposalID) (v : String) :
    ((paxosSendAccept st pid v).2 ≠ [] →
        st.proposer_leader = true ∧ retryNotActive st = true)
    ∧ (st.proposer_leader = true → retryNotActive st = true →
        paxosSendAccept st pid v =
          ({ st with accept_retry := some true },
           [.publishAccept pid v, .scheduleRetry hb_period pid v]))
    ∧ (st.proposer_leader = false → (acceptRetryFires st pid v).2 = [])
    ∧ (st.proposer_leader = true →
        (acceptRetryFires st pid v).2 =
          [.publishAccept pid v, .scheduleRetry hb_period pid v])
    ∧ (paxosOnLeadershipLost st).accept_retry = none := by
  refine ⟨?_, ?_, ?_, ?_, ?_⟩
  · intro hne
    by_cases hL : st.proposer_leader = true
    · by_cases hR : retryNotActive st = true
      · exact ⟨hL, hR⟩
      · exfalso
        apply hne
        simp [paxosSendAccept, hR]
    · exfalso
      apply hne
      simp [paxosSendAccept, hL]
  · intro hL hR
    simp [paxosSendAccept, hL, hR]
  · intro hL
    simp [acceptRetryFires, paxosSendAccept, retryNotActive, hL]
  · intro hL
    simp [acceptRetryFires, paxosSendAccept, retryNotActive, hL]
  · cases hr : st.accept_retry <;>
      by_cases hp : st.heartbeat_pulser_running = true <;>
        simp [paxosOnLeadershipLost, hr, hp]

/-- Concrete run of C5: a leader with no pending handle publishes the
accept and schedules its retransmission after `hb_period`. -/
theorem accept_retry_witness :
    paxosSendAccept leaderNode ((1 : Int), "A") "v" =
      ({ leaderNode with accept_retry := some true },
       [.publishAccept ((1 : Int), "A") "v",
        .scheduleRetry hb_period ((1 : Int), "A") "v"]) :=
  (accept_retry_spec leaderNode ((1 : Int), "A") "v").2.1 rfl rfl

/-- C6: every frame stack the node publishes starts with the `'zpax'` topic
tag; its part 1 carries at least `type`, `node_uid` and `seq_num`; and the
identical stack is handed to the node's own subscribe dispatcher,
synchronously after the socket send and before the publish call returns. -/
theorem publish_loopback_spec (st : NodeState) (mt : String)
    (kvs : List (String × Json)) (rest : List Json) :
    publish st mt (Json.obj kvs :: rest) =
      .ok (publishStack st mt kvs rest,
           [.pubSend (publishStack st mt kvs rest),
            .subDispatch (publishStack st mt kvs rest)])
    ∧ (publishStack st mt kvs rest).topic = "zpax"
    ∧ (publishStack st mt kvs rest).parts =
        Json.obj (publishHead st mt kvs) :: rest
    ∧ lookupKey (publishHead st mt kvs) "type" = some (.str mt)
    ∧ lookupKey (publishHead st mt kvs) "node_uid" = some (.str st.node_uid)
    ∧ lookupKey (publishHead st mt kvs) "seq_num"
        = some (.num st.sequence_number) :=
  ⟨rfl, rfl, rfl, publishHead_type st mt kvs, publishHead_node_uid st mt kvs,
   publishHead_seq_num st mt kvs⟩

/-- C7 (amended): `shutdown` invokes `onShutdown` first, cancels the accept
retry when a handle is pending, closes both sockets, and stops each
heartbeat timer that is running — the accept-retry cancellation precedes
the socket closes, but the heartbeat timers are stopped only after both
sockets are closed, so it is not the case that every timer is stopped
before either socket is closed. -/
theorem shutdown_spec (st : NodeState) :
    (shutdown st).head? = some .onShutdown
    ∧ ShutEvent.closePub ∈ shutdown st
    ∧ ShutEvent.closeSub ∈ shutdown st
    ∧ (st.accept_retry = some true ↔ ShutEvent.cancelRetry ∈ shutdown st)
    ∧ (st.heartbeat_poller_running = true ↔ ShutEvent.stopPoller ∈ shutdown st)
    ∧ (st.heartbeat_pulser_running = true ↔ ShutEvent.stopPulser ∈ shutdown st)
    ∧ ((shutdown st).dropWhile (fun e => !(isSocketClose e))).any
        (fun e => e == ShutEvent.cancelRetry) = false
    ∧ (st.heartbeat_poller_running = true ∨ st.heartbeat_pulser_running = true →
        allTimerStopsPrecedeCloses (shutdown st) = false) := by
  rcases hr : st.accept_retry with _ | b
  · by_cases hp : st.heartbeat_poller_running = true <;>
      by_cases hq : st.heartbeat_pulser_running = true <;>
        simp [shutdown, allTimerStopsPrecedeCloses, isSocketClose, isTimerStop,
          hr, hp, hq]
  · cases b <;>
      by_cases hp : st.heartbeat_poller_running = true <;>
        by_cases hq : st.heartbeat_pulser_running = true <;>
          simp [shutdown, allTimerStopsPrecedeCloses, isSocketClose,
            isTimerStop, hr, hp, hq]

/-- C7 fails as stated: on a node with a pending retry and both heartbeat
timers running, the shutdown trace closes the sockets before stopping the
heartbeat timers, so not every timer is stopped before a socket is
closed. -/
theorem shutdown_counterexample :
    shutdown busyLeaderNode =
      [.onShutdown, .cancelRetry, .closePub, .closeSub,
       .stopPoller, .stopPulser]
    ∧ allTimerStopsPrecedeCloses (shutdown busyLeaderNode) = false :=
  ⟨rfl, rfl⟩

/-- Concrete run of C7: the running heartbeat poller is stopped during
shutdown. -/
theorem shutdown_witness :
    ShutEvent.stopPoller ∈ shutdown busyLeaderNode :=
  (shutdown_spec busyLeaderNode).2.2.2.2.1.mp rfl

/-- C8 (amended): `commit(key, value, proposal_number)` updates the row for
`key` to `(value, proposal_number)` exactly when that row exists and its
current `proposal` is non-NULL and strictly less than the given number;
otherwise the row is unchanged — in particular an absent row is not
created, because the adapter issues an SQL UPDATE, which never inserts. -/
theorem update_key_spec (tbl : List Row) (k v : String) (p : Int) :
    getRow (update_key tbl k v p) k =
      match getRow tbl k with
      | some r =>
          some (if sqlLt r.proposal p
                then { r with value := v, proposal := some p }
                else r)
      | none => none := by
  induction tbl with
  | nil => rfl
  | cons hd tl ih =>
      have hmap : update_key (hd :: tl) k v p =
          (if hd.key == k && sqlLt hd.proposal p then
            { hd with value := v, proposal := some p }
          else hd) :: update_key tl k v p := rfl
      rw [hmap]
      by_cases hk : (hd.key == k) = true
      · have hgr : getRow (hd :: tl) k = some hd :=
          List.find?_cons_of_pos _ hk
        by_cases hlt : sqlLt hd.proposal p = true
        · rw [if_pos (by simp [hk, hlt]), hgr]
          show getRow ({ hd with value := v, proposal := some p }
              :: update_key tl k v p) k
            = some (if sqlLt hd.proposal p = true
                    then { hd with value := v, proposal := some p } else hd)
          rw [if_pos hlt]
          exact List.find?_cons_of_pos _ hk
        · rw [if_neg (by simp [hlt]), hgr]
          show getRow (hd :: update_key tl k v p) k
            = some (if sqlLt hd.proposal p = true
                    then { hd with value := v, proposal := some p } else hd)
          rw [if_neg hlt]
          exact List.find?_cons_of_pos _ hk
      · have hgr : getRow (hd :: tl) k = getRow tl k :=
          List.find?_cons_of_neg _ hk
        rw [if_neg (by simp [hk]), hgr]
        show getRow (hd :: update_key tl k v p) k = _
        have hskip : getRow (hd :: update_key tl k v p) k
            = getRow (update_key tl k v p) k :=
          List.find?_cons_of_neg _ hk
        rw [hskip]
        exact ih

/-- C8 fails as stated: committing to an absent key leaves the table
without a row for that key — the claimed write-on-absent-row does not
happen. -/
theorem update_key_counterexample :
    update_key [] "k" "v" 5 = []
    ∧ getRow (update_key [] "k" "v" 5) "k" = none :=
  ⟨rfl, rfl⟩

/-- C9 (amended): an inbound frame with any undecodable part after the
topic is dropped with a log entry, and a decodable frame whose first part
is an object lacking a `type` field is dropped with a log entry — in both
cases without dispatching to any handler, hence without touching node or
Paxos state.  But the handler is not exception-free for every frame: a
frame with no parts after the topic raises `IndexError`, and one whose
first decoded part is not a key-value object raises `TypeError` from the
`'type' in parts[0]` test. -/
theorem malformed_frame_spec (raw : List (Option Json))
    (kvs : List (String × Json)) (rest : List Json) :
    (none ∈ raw →
        onSubReceived raw = .droppedInvalidJson
        ∧ outcomeLogs (onSubReceived raw) ≠ [])
    ∧ (lookupKey kvs "type" = none →
        onSubReceived ((Json.obj kvs :: rest).map some) = .droppedMissingType
        ∧ outcomeLogs
            (onSubReceived ((Json.obj kvs :: rest).map some)) ≠ [])
    ∧ onSubReceived [] = .raised .indexError := by
  refine ⟨?_, ?_, rfl⟩
  · intro hmem
    have hd := decodeParts_of_mem_none raw hmem
    constructor
    · simp [onSubReceived, hd]
    · simp [onSubReceived, hd, outcomeLogs]
  · intro hty
    constructor
    · simp [onSubReceived, decodeParts_cons_some, decodeParts_map_some,
        pyContainsType, hty]
    · simp [onSubReceived, decodeParts_cons_some, decodeParts_map_some,
        pyContainsType, hty, outcomeLogs]

/-- C9 fails as stated: the frame `['zpax', '5']` decodes, its first
decoded part (the number 5) has no `type` field, yet the handler raises
`TypeError` instead of returning, because `'type' in 5` is a Python
`TypeError`. -/
theorem malformed_frame_counterexample :
    onSubReceived [some (Json.num 5)] = .raised .typeError := rfl

/-- Concrete run of C9: a frame whose single part fails JSON decoding is
dropped. -/
theorem malformed_frame_witness :
    onSubReceived [none] = .droppedInvalidJson :=
  ((malformed_frame_spec [none] [] []).1 (List.mem_singleton.mpr rfl)).1

/-- C10: dispatch resolves the handler by concatenating `'_on_sub_'` with
the frame's `type` string, so the frame type `'received'` — not one of the
six recognized wire types — reaches the internal method `_on_sub_received`
itself instead of being dropped; and a type is dropped exactly when no
attribute of the concatenated name exists on the class, in which case
nothing is logged. -/
theorem dispatch_by_name_spec :
    "received" ∉ wireTypes
    ∧ onSubReceived [some (Json.obj [("type", Json.str "received")])] =
        .dispatched "_on_sub_received" [Json.obj [("type", Json.str "received")]]
    ∧ (∀ (kvs : List (String × Json)) (rest : List Json) (s : String),
        lookupKey kvs "type" = some (.str s) →
        (onSubReceived ((Json.obj kvs :: rest).map some) = .droppedUnknownType
          ↔ basicNodeHasAttr ("_on_sub_" ++ s) = false))
    ∧ outcomeLogs .droppedUnknownType = [] := by
  refine ⟨by decide, rfl, ?_, rfl⟩
  intro kvs rest s hty
  by_cases hA : basicNodeHasAttr ("_on_sub_" ++ s) = true
  · simp [onSubReceived, decodeParts_cons_some, decodeParts_map_some,
      pyContainsType, pySubscriptType, hty, hA]
  · have hA' : basicNodeHasAttr ("_on_sub_" ++ s) = false :=
      Bool.eq_false_iff.mpr hA
    simp [onSubReceived, decodeParts_cons_some, decodeParts_map_some,
      pyContainsType, pySubscriptType, hty, hA']

/-- Concrete run of C10: an unrecognized type with no matching attribute is
dropped silently. -/
theorem dispatch_by_name_witness :
    onSubReceived [some (Json.obj [("type", Json.str "nonsense")])] =
      .droppedUnknownType :=
  (dispatch_by_name_spec.2.2.1 [("type", Json.str "nonsense")] [] "nonsense"
    rfl).mpr rfl

end ZPax
